import Mathlib

/-!
Shallow embedding of the counterweight solver `calculateCounterweight`
from `src/utils/calculator.ts` (the file is included in `src/App.tsx`,
lines 379-493 of the concatenated source).  Numbers are modelled by the
rationals; the human-readable `message` string of the source is modelled
by a structured reason code carrying exactly the data the source
interpolates into the string.
-/

namespace Counterweight

/-- `Material` from `src/types.ts`: identity key, display name, density
in kg/m3 and priority rank. -/
structure Material where
  id : String
  name : String
  density : ℚ
  priority : ℚ
  deriving DecidableEq

/-- `Dimensions` from `src/types.ts`: width, depth and height in mm. -/
structure Dimensions where
  width : ℚ
  depth : ℚ
  height : ℚ
  deriving DecidableEq

/-- One entry of `CalculationResult.materials` from `src/types.ts`. -/
structure MaterialAllocation where
  material : Material
  volume : ℚ
  weight : ℚ
  percentage : ℚ
  deriving DecidableEq

/-- Structured model of the `message` string of `CalculationResult`:
one constructor per distinct message construction in the source, carrying
the data interpolated into the text.  For the infeasibility diagnosis the
two Booleans record which of the two bound checks appended their text. -/
inductive Msg where
  | frameExceedsTarget : Msg
  | successPair : String → String → Msg
  | successSingle : String → Msg
  | infeasible : Bool → Bool → Msg
  deriving DecidableEq

/-- `CalculationResult` from `src/types.ts`. -/
structure CalculationResult where
  totalVolume : ℚ
  netTargetWeight : ℚ
  materials : List MaterialAllocation
  isFeasible : Bool
  message : Msg
  deriving DecidableEq

/-- The volume-range acceptance tolerance `0.000001` of the source. -/
def tolVol : ℚ := 1 / 1000000

/-- The single-material weight tolerance `0.1` of the source. -/
def tolWeight : ℚ := 1 / 10

/-- Volume in m3 of the box, source line 388:
`(dimensions.width / 1000) * (dimensions.depth / 1000) * (dimensions.height / 1000)`. -/
def volM3 (dimensions : Dimensions) : ℚ :=
  (dimensions.width / 1000) * (dimensions.depth / 1000) * (dimensions.height / 1000)

/-- The sort of line 404: `[...materials].sort((a, b) => a.priority - b.priority)`.
ECMAScript sort is stable, so a stable insertion sort by ascending
priority produces the same list. -/
def sortByPriority (materials : List Material) : List Material :=
  materials.insertionSort (fun a b => a.priority ≤ b.priority)

/-- Candidate volume of the first material of a pair, source line 422:
`(netWeight - volM3 * d2) / (d1 - d2)`. -/
def pairV1 (V W : ℚ) (m1 m2 : Material) : ℚ :=
  (W - V * m2.density) / (m1.density - m2.density)

/-- Clamping of line 428/429: `Math.max(0, Math.min(volM3, v))`. -/
def clamp (V x : ℚ) : ℚ := max 0 (min V x)

/-- The test deciding whether the pair `(m1, m2)` is used: line 419
(`if (d1 === d2) continue`) together with the acceptance test of
line 427 (`v1 >= -0.000001 && v2 >= -0.000001 && v1 <= volM3 + 0.000001`). -/
def accepts (V W : ℚ) (m1 m2 : Material) : Bool :=
  decide (m1.density ≠ m2.density) &&
    (let v1 := pairV1 V W m1 m2
     let v2 := V - v1
     decide (-tolVol ≤ v1) && decide (-tolVol ≤ v2) && decide (v1 ≤ V + tolVol))

/-- The pair loop of lines 412-452: scan consecutive pairs of the sorted
list and return the first accepted pair, if any. -/
def findPair (V W : ℚ) : List Material → Option (Material × Material)
  | [] => none
  | [_] => none
  | m1 :: m2 :: rest =>
    if accepts V W m1 m2 then some (m1, m2) else findPair V W (m2 :: rest)

/-- The single-material fallback loop of lines 455-473: first material
(in sorted order) whose full-volume weight is within 0.1 kg of the net
target, if any (`Math.abs(theoreticalWeight - netWeight) < 0.1`). -/
def findSingle (V W : ℚ) : List Material → Option Material
  | [] => none
  | m :: rest =>
    if |V * m.density - W| < tolWeight then some m else findSingle V W rest

/-- The result record built on lines 431-450 for an accepted pair:
volumes clamped into `[0, volM3]`, weight `= volume * density`,
percentage `= volume / volM3 * 100`.  (At `volM3 = 0` the source
divides by zero, producing NaN; the rational embedding yields 0 there,
and both fail every comparison a claim makes of the percentage.) -/
def mkPairResult (V W : ℚ) (m1 m2 : Material) : CalculationResult :=
  let v1 := pairV1 V W m1 m2
  let v2 := V - v1
  let actualV1 := clamp V v1
  let actualV2 := clamp V v2
  { totalVolume := V
    netTargetWeight := W
    isFeasible := true
    message := .successPair m1.name m2.name
    materials :=
      [ { material := m1, volume := actualV1, weight := actualV1 * m1.density,
          percentage := actualV1 / V * 100 },
        { material := m2, volume := actualV2, weight := actualV2 * m2.density,
          percentage := actualV2 / V * 100 } ] }

/-- The result record built on lines 458-471 for a single material:
the full volume, `weight = volM3 * density`, percentage literally 100. -/
def mkSingleResult (V W : ℚ) (m : Material) : CalculationResult :=
  { totalVolume := V
    netTargetWeight := W
    isFeasible := true
    message := .successSingle m.name
    materials := [ { material := m, volume := V, weight := V * m.density,
                     percentage := 100 } ] }

/-- The infeasibility diagnosis of lines 476-492, over the ORIGINAL
materials list.  For a nonempty list, `minDensity` and `maxDensity` are
the usual minimum and maximum and the two flags record the checks
`netWeight < volM3 * minDensity` and `netWeight > volM3 * maxDensity`.
For the empty list ECMAScript gives `Math.min() = Infinity` and
`Math.max() = -Infinity`; then `volM3 * Infinity` is `Infinity`, `NaN`
or `-Infinity` as `volM3` is positive, zero or negative (symmetrically
for the maximum), every comparison with NaN is false, so both checks
hold exactly when `0 < volM3`. -/
def mkInfeasible (V W : ℚ) (materials : List Material) : CalculationResult :=
  let flags : Bool × Bool :=
    match materials with
    | [] => if 0 < V then (true, true) else (false, false)
    | m :: rest =>
      let minD := rest.foldl (fun a x => min a x.density) m.density
      let maxD := rest.foldl (fun a x => max a x.density) m.density
      (decide (W < V * minD), decide (V * maxD < W))
  { totalVolume := V
    netTargetWeight := W
    materials := []
    isFeasible := false
    message := .infeasible flags.1 flags.2 }

/-- The early return of lines 393-401 when the net weight is not positive. -/
def mkFrameResult (V W : ℚ) : CalculationResult :=
  { totalVolume := V
    netTargetWeight := W
    materials := []
    isFeasible := false
    message := .frameExceedsTarget }

/-- `calculateCounterweight` of `src/utils/calculator.ts` (lines 381-493):
compute the volume and net weight, return early when the net weight is
not positive, otherwise try the adjacent pairs of the priority-sorted
list, then the single-material fallback, then diagnose infeasibility. -/
def calculateCounterweight (dimensions : Dimensions)
    (targetTotalWeight frameWeight : ℚ) (materials : List Material) :
    CalculationResult :=
  let V := volM3 dimensions
  let netWeight := targetTotalWeight - frameWeight
  if netWeight ≤ 0 then
    mkFrameResult V netWeight
  else
    let sorted := sortByPriority materials
    match findPair V netWeight sorted with
    | some (m1, m2) => mkPairResult V netWeight m1 m2
    | none =>
      match findSingle V netWeight sorted with
      | some m => mkSingleResult V netWeight m
      | none => mkInfeasible V netWeight materials

/-- Whether the pair starting at index `j` of `l` would be accepted
(false when no such pair exists). -/
def acceptsAt (V W : ℚ) (l : List Material) (j : ℕ) : Bool :=
  match l.drop j with
  | a :: b :: _ => accepts V W a b
  | _ => false

/-! ### Basic lemmas about the embedded operations -/

theorem tolVol_pos : (0 : ℚ) < tolVol := by norm_num [tolVol]

theorem accepts_spec {V W : ℚ} {m1 m2 : Material}
    (h : accepts V W m1 m2 = true) :
    m1.density ≠ m2.density ∧ -tolVol ≤ pairV1 V W m1 m2 ∧
      -tolVol ≤ V - pairV1 V W m1 m2 ∧ pairV1 V W m1 m2 ≤ V + tolVol := by
  simp only [accepts, Bool.and_eq_true, decide_eq_true_eq] at h
  exact ⟨h.1, h.2.1.1, h.2.1.2, h.2.2⟩

theorem pairV1_weight {V W : ℚ} {m1 m2 : Material}
    (h : m1.density ≠ m2.density) :
    pairV1 V W m1 m2 * m1.density + (V - pairV1 V W m1 m2) * m2.density = W := by
  have hd : m1.density - m2.density ≠ 0 := sub_ne_zero.mpr h
  unfold pairV1
  field_simp
  ring

theorem abs_clamp_sub_le {V x : ℚ} (h1 : -tolVol ≤ x) (h2 : x ≤ V + tolVol) :
    |clamp V x - x| ≤ tolVol := by
  have htol := tolVol_pos
  unfold clamp
  rcases le_total x V with hxV | hVx
  · rw [min_eq_right hxV]
    rcases le_total 0 x with h0 | h0
    · rw [max_eq_right h0]
      simpa using le_of_lt htol
    · rw [max_eq_left h0]
      rw [abs_le]
      constructor <;> linarith
  · rw [min_eq_left hVx]
    rcases le_total 0 V with h0 | h0
    · rw [max_eq_right h0, abs_le]
      constructor <;> linarith
    · rw [max_eq_left h0, abs_le]
      constructor <;> linarith

theorem clamp_add_clamp {V : ℚ} (hV : 0 ≤ V) (x : ℚ) :
    clamp V x + clamp V (V - x) = V := by
  unfold clamp
  rcases le_total x 0 with h0 | h0
  · rw [min_eq_right (le_trans h0 hV), max_eq_left h0,
      min_eq_left (by linarith : V ≤ V - x), max_eq_right hV]
    ring
  · rcases le_total x V with hxV | hxV
    · rw [min_eq_right hxV, max_eq_right h0,
        min_eq_right (by linarith : V - x ≤ V),
        max_eq_right (by linarith : (0 : ℚ) ≤ V - x)]
      ring
    · rw [min_eq_left hxV, max_eq_right hV,
        min_eq_right (by linarith : V - x ≤ V),
        max_eq_left (by linarith : V - x ≤ 0)]
      ring

theorem findPair_accepts {V W : ℚ} :
    ∀ {l : List Material} {m1 m2 : Material},
      findPair V W l = some (m1, m2) → accepts V W m1 m2 = true
  | [], _, _, h => by simp [findPair] at h
  | [_], _, _, h => by simp [findPair] at h
  | a :: b :: rest, m1, m2, h => by
    rw [findPair] at h
    by_cases hab : accepts V W a b
    · rw [if_pos hab] at h
      obtain ⟨rfl, rfl⟩ : a = m1 ∧ b = m2 := by
        simpa [Prod.ext_iff] using h
      exact hab
    · rw [if_neg hab] at h
      exact findPair_accepts h

theorem findPair_mem {V W : ℚ} :
    ∀ {l : List Material} {m1 m2 : Material},
      findPair V W l = some (m1, m2) → m1 ∈ l ∧ m2 ∈ l
  | [], _, _, h => by simp [findPair] at h
  | [_], _, _, h => by simp [findPair] at h
  | a :: b :: rest, m1, m2, h => by
    rw [findPair] at h
    by_cases hab : accepts V W a b
    · rw [if_pos hab] at h
      obtain ⟨rfl, rfl⟩ : a = m1 ∧ b = m2 := by
        simpa [Prod.ext_iff] using h
      exact ⟨List.mem_cons_self _ _, List.mem_cons_of_mem _ (List.mem_cons_self _ _)⟩
    · rw [if_neg hab] at h
      have ih := findPair_mem h
      exact ⟨List.mem_cons_of_mem _ ih.1, List.mem_cons_of_mem _ ih.2⟩

theorem findSingle_spec {V W : ℚ} :
    ∀ {l : List Material} {m : Material},
      findSingle V W l = some m → |V * m.density - W| < tolWeight
  | [], _, h => by simp [findSingle] at h
  | a :: rest, m, h => by
    rw [findSingle] at h
    by_cases ha : |V * a.density - W| < tolWeight
    · rw [if_pos ha] at h
      obtain rfl : a = m := by simpa using h
      exact ha
    · rw [if_neg ha] at h
      exact findSingle_spec h

theorem findSingle_mem {V W : ℚ} :
    ∀ {l : List Material} {m : Material},
      findSingle V W l = some m → m ∈ l
  | [], _, h => by simp [findSingle] at h
  | a :: rest, m, h => by
    rw [findSingle] at h
    by_cases ha : |V * a.density - W| < tolWeight
    · rw [if_pos ha] at h
      obtain rfl : a = m := by simpa using h
      exact List.mem_cons_self _ _
    · rw [if_neg ha] at h
      exact List.mem_cons_of_mem _ (findSingle_mem h)

theorem acceptsAt_cons_succ (V W : ℚ) (x : Material) (l : List Material) (j : ℕ) :
    acceptsAt V W (x :: l) (j + 1) = acceptsAt V W l j := by
  simp [acceptsAt, List.drop_succ_cons]

/-- `findPair` returns the accepted pair of least index: if the pair at
index `i` is accepted and no pair at a smaller index is, the scan stops
at index `i`. -/
theorem findPair_eq_first {V W : ℚ} :
    ∀ (i : ℕ) (l : List Material) (m1 m2 : Material) (rest : List Material),
      l.drop i = m1 :: m2 :: rest → accepts V W m1 m2 = true →
      (∀ j, j < i → acceptsAt V W l j = false) →
      findPair V W l = some (m1, m2)
  | 0, l, m1, m2, rest, hdrop, hacc, _ => by
    rw [List.drop_zero] at hdrop
    subst hdrop
    rw [findPair, if_pos hacc]
  | i + 1, [], m1, m2, rest, hdrop, _, _ => by
    simp at hdrop
  | i + 1, [x], m1, m2, rest, hdrop, _, _ => by
    rw [List.drop_succ_cons] at hdrop
    simp at hdrop
  | i + 1, x :: y :: t, m1, m2, rest, hdrop, hacc, hmin => by
    have h0 : acceptsAt V W (x :: y :: t) 0 = false := hmin 0 (Nat.succ_pos i)
    have hxy : accepts V W x y = false := by
      simpa [acceptsAt] using h0
    rw [findPair, if_neg (by simp [hxy])]
    refine findPair_eq_first i (y :: t) m1 m2 rest ?_ hacc ?_
    · simpa [List.drop_succ_cons] using hdrop
    · intro j hj
      have := hmin (j + 1) (Nat.succ_lt_succ hj)
      simpa [acceptsAt_cons_succ] using this

/-- Case inversion for the solver: each call is the early frame return,
a pair result for the pair found by the scan, a single-material result,
or the infeasibility diagnosis. -/
theorem calculateCounterweight_cases (dimensions : Dimensions)
    (tw fw : ℚ) (ms : List Material) :
    (tw - fw ≤ 0 ∧ calculateCounterweight dimensions tw fw ms =
        mkFrameResult (volM3 dimensions) (tw - fw)) ∨
    (0 < tw - fw ∧ ∃ m1 m2,
        findPair (volM3 dimensions) (tw - fw) (sortByPriority ms) = some (m1, m2) ∧
        calculateCounterweight dimensions tw fw ms =
          mkPairResult (volM3 dimensions) (tw - fw) m1 m2) ∨
    (0 < tw - fw ∧
        findPair (volM3 dimensions) (tw - fw) (sortByPriority ms) = none ∧ ∃ m,
        findSingle (volM3 dimensions) (tw - fw) (sortByPriority ms) = some m ∧
        calculateCounterweight dimensions tw fw ms =
          mkSingleResult (volM3 dimensions) (tw - fw) m) ∨
    (0 < tw - fw ∧
        findPair (volM3 dimensions) (tw - fw) (sortByPriority ms) = none ∧
        findSingle (volM3 dimensions) (tw - fw) (sortByPriority ms) = none ∧
        calculateCounterweight dimensions tw fw ms =
          mkInfeasible (volM3 dimensions) (tw - fw) ms) := by
  by_cases h0 : tw - fw ≤ 0
  · left
    exact ⟨h0, by rw [calculateCounterweight, if_pos h0]⟩
  · have hpos : 0 < tw - fw := lt_of_not_le h0
    rcases hfp : findPair (volM3 dimensions) (tw - fw) (sortByPriority ms) with _ | ⟨m1, m2⟩
    · rcases hfs : findSingle (volM3 dimensions) (tw - fw) (sortByPriority ms) with _ | m
      · right; right; right
        refine ⟨hpos, rfl, rfl, ?_⟩
        rw [calculateCounterweight, if_neg h0]
        simp only [hfp, hfs]
      · right; right; left
        refine ⟨hpos, rfl, m, rfl, ?_⟩
        rw [calculateCounterweight, if_neg h0]
        simp only [hfp, hfs]
    · right; left
      refine ⟨hpos, m1, m2, rfl, ?_⟩
      rw [calculateCounterweight, if_neg h0]
      simp only [hfp]

/-! ### Concrete materials used by witnesses and counterexamples -/

/-- Default material 1 of the application (`Beton`, 2400 kg/m3, priority 1). -/
def matBeton : Material := ⟨"1", "Beton", 2400, 1⟩

/-- Default material 2 of the application (`Ocel`, 7850 kg/m3, priority 2). -/
def matOcel : Material := ⟨"2", "Ocel", 7850, 2⟩

def matA : Material := ⟨"a", "A", 1000, 1⟩

def matB : Material := ⟨"b", "B", 2000, 2⟩

def matLight : Material := ⟨"d", "D", 100, 1⟩

def matMid : Material := ⟨"e", "E", 200, 2⟩

def matHeavy : Material := ⟨"f", "F", 1800, 3⟩

def matDense : Material := ⟨"g", "G", 10000, 1⟩

def matZero : Material := ⟨"h", "H", 0, 2⟩

/-- Evaluation of the solver at the application default input
(dimensions 600 x 100 x 1800 mm, target 780 kg, frame 79 kg, materials
Beton and Ocel): the first pair is accepted with Beton volume
367/13625 m3 (about 0.0269 m3, weight about 64.6 kg) and Ocel volume
2209/27250 m3 (about 0.0810 m3, weight about 636.4 kg). -/
theorem evalDefaultInput :
    calculateCounterweight ⟨600, 100, 1800⟩ 780 79 [matBeton, matOcel] =
      { totalVolume := 27 / 250
        netTargetWeight := 701
        materials := [⟨matBeton, 367 / 13625, 35232 / 545, 73400 / 2943⟩,
                      ⟨matOcel, 2209 / 27250, 346813 / 545, 220900 / 2943⟩]
        isFeasible := true
        message := .successPair "Beton" "Ocel" } := by
  norm_num [calculateCounterweight, volM3, sortByPriority, List.insertionSort,
    List.orderedInsert, findPair, findSingle, accepts, pairV1, clamp,
    mkPairResult, mkSingleResult, mkFrameResult, mkInfeasible, tolVol, tolWeight,
    matBeton, matOcel, min_def, max_def]

/-- Evaluation of the solver at a zero-width input: the total volume is
0, yet the pair of densities 10000 and 0 is accepted for the tiny net
target weight 1/1000 kg, both volumes clamp to 0 and both percentages
are 0 (division of 0 by the zero total volume; NaN in the source). -/
theorem evalZeroWidth :
    calculateCounterweight ⟨0, 100, 100⟩ (1 / 1000) 0 [matDense, matZero] =
      { totalVolume := 0
        netTargetWeight := 1 / 1000
        materials := [⟨matDense, 0, 0, 0⟩, ⟨matZero, 0, 0, 0⟩]
        isFeasible := true
        message := .successPair "G" "H" } := by
  norm_num [calculateCounterweight, volM3, sortByPriority, List.insertionSort,
    List.orderedInsert, findPair, findSingle, accepts, pairV1, clamp,
    mkPairResult, mkSingleResult, mkFrameResult, mkInfeasible, tolVol, tolWeight,
    matDense, matZero, min_def, max_def]

/-- Tolerance bound for the weight of an accepted, clamped pair: each
clamped volume moves by at most `tolVol`, so the weight moves by at most
`tolVol` scaled by the two densities. -/
theorem pair_weight_bound {V W : ℚ} {m1 m2 : Material}
    (hacc : accepts V W m1 m2 = true) :
    |clamp V (pairV1 V W m1 m2) * m1.density +
        clamp V (V - pairV1 V W m1 m2) * m2.density - W| ≤
      tolVol * (|m1.density| + |m2.density|) := by
  obtain ⟨hne, h1, h2, h3⟩ := accepts_spec hacc
  have hw : pairV1 V W m1 m2 * m1.density +
      (V - pairV1 V W m1 m2) * m2.density = W := pairV1_weight hne
  have hc1 : |clamp V (pairV1 V W m1 m2) - pairV1 V W m1 m2| ≤ tolVol :=
    abs_clamp_sub_le h1 h3
  have hc2 : |clamp V (V - pairV1 V W m1 m2) - (V - pairV1 V W m1 m2)| ≤ tolVol :=
    abs_clamp_sub_le h2 (by linarith)
  have key : clamp V (pairV1 V W m1 m2) * m1.density +
      clamp V (V - pairV1 V W m1 m2) * m2.density - W =
      (clamp V (pairV1 V W m1 m2) - pairV1 V W m1 m2) * m1.density +
      (clamp V (V - pairV1 V W m1 m2) - (V - pairV1 V W m1 m2)) * m2.density := by
    linear_combination hw
  rw [key]
  calc |(clamp V (pairV1 V W m1 m2) - pairV1 V W m1 m2) * m1.density +
        (clamp V (V - pairV1 V W m1 m2) - (V - pairV1 V W m1 m2)) * m2.density|
      ≤ |(clamp V (pairV1 V W m1 m2) - pairV1 V W m1 m2) * m1.density| +
        |(clamp V (V - pairV1 V W m1 m2) - (V - pairV1 V W m1 m2)) * m2.density| :=
        abs_add _ _
    _ = |clamp V (pairV1 V W m1 m2) - pairV1 V W m1 m2| * |m1.density| +
        |clamp V (V - pairV1 V W m1 m2) - (V - pairV1 V W m1 m2)| * |m2.density| := by
        rw [abs_mul, abs_mul]
    _ ≤ tolVol * |m1.density| + tolVol * |m2.density| :=
        add_le_add (mul_le_mul_of_nonneg_right hc1 (abs_nonneg _))
          (mul_le_mul_of_nonneg_right hc2 (abs_nonneg _))
    _ = tolVol * (|m1.density| + |m2.density|) := by ring

/-- C1: for every input on which the solver reports feasibility, the sum
of the weights of the returned allocation entries equals the net target
weight within the stated tolerances: strictly within 0.1 kg on the
single-material path, and within the 1e-6 m3 volume tolerance scaled by
the two densities on the pair path. -/
theorem weight_sum_within_tolerance (dimensions : Dimensions) (tw fw : ℚ)
    (ms : List Material)
    (h : (calculateCounterweight dimensions tw fw ms).isFeasible = true) :
    |((calculateCounterweight dimensions tw fw ms).materials.map
        (fun a => a.weight)).sum -
      (calculateCounterweight dimensions tw fw ms).netTargetWeight| < tolWeight ∨
    |((calculateCounterweight dimensions tw fw ms).materials.map
        (fun a => a.weight)).sum -
      (calculateCounterweight dimensions tw fw ms).netTargetWeight| ≤
      tolVol * ((calculateCounterweight dimensions tw fw ms).materials.map
        (fun a => |a.material.density|)).sum := by
  rcases calculateCounterweight_cases dimensions tw fw ms with
    ⟨_, hr⟩ | ⟨_, m1, m2, hfp, hr⟩ | ⟨_, _, m, hfs, hr⟩ | ⟨_, _, _, hr⟩
  · rw [hr] at h
    simp [mkFrameResult] at h
  · rw [hr]
    right
    have hb := pair_weight_bound (findPair_accepts hfp)
    simp only [mkPairResult, List.map_cons, List.map_nil, List.sum_cons,
      List.sum_nil, add_zero]
    exact hb
  · rw [hr]
    left
    have hb := findSingle_spec hfs
    simp only [mkSingleResult, List.map_cons, List.map_nil, List.sum_cons,
      List.sum_nil, add_zero]
    exact hb
  · rw [hr] at h
    simp [mkInfeasible] at h

/-- C1 witness at the default application input. -/
theorem weight_sum_within_tolerance_witness :
    |((calculateCounterweight ⟨600, 100, 1800⟩ 780 79 [matBeton, matOcel]).materials.map
        (fun a => a.weight)).sum -
      (calculateCounterweight ⟨600, 100, 1800⟩ 780 79 [matBeton, matOcel]).netTargetWeight| <
        tolWeight ∨
    |((calculateCounterweight ⟨600, 100, 1800⟩ 780 79 [matBeton, matOcel]).materials.map
        (fun a => a.weight)).sum -
      (calculateCounterweight ⟨600, 100, 1800⟩ 780 79 [matBeton, matOcel]).netTargetWeight| ≤
      tolVol * ((calculateCounterweight ⟨600, 100, 1800⟩ 780 79 [matBeton, matOcel]).materials.map
        (fun a => |a.material.density|)).sum :=
  weight_sum_within_tolerance ⟨600, 100, 1800⟩ 780 79 [matBeton, matOcel]
    (by rw [evalDefaultInput])

/-- C2: for positive dimensions, the volumes of the allocation entries of
a feasible result sum to the total volume within 1e-6 m3 (in fact
exactly, clamping included). -/
theorem volume_sum_within_tolerance (dimensions : Dimensions) (tw fw : ℚ)
    (ms : List Material)
    (hw : 0 < dimensions.width) (hd : 0 < dimensions.depth)
    (hh : 0 < dimensions.height)
    (h : (calculateCounterweight dimensions tw fw ms).isFeasible = true) :
    |((calculateCounterweight dimensions tw fw ms).materials.map
        (fun a => a.volume)).sum -
      (calculateCounterweight dimensions tw fw ms).totalVolume| ≤ tolVol := by
  have hV : 0 < volM3 dimensions := by
    unfold volM3
    exact mul_pos (mul_pos (div_pos hw (by norm_num)) (div_pos hd (by norm_num)))
      (div_pos hh (by norm_num))
  rcases calculateCounterweight_cases dimensions tw fw ms with
    ⟨_, hr⟩ | ⟨_, m1, m2, hfp, hr⟩ | ⟨_, _, m, hfs, hr⟩ | ⟨_, _, _, hr⟩
  · rw [hr] at h
    simp [mkFrameResult] at h
  · rw [hr]
    have hsum := clamp_add_clamp hV.le (pairV1 (volM3 dimensions) (tw - fw) m1 m2)
    simp only [mkPairResult, List.map_cons, List.map_nil, List.sum_cons,
      List.sum_nil, add_zero]
    rw [hsum]
    simp [le_of_lt tolVol_pos]
  · rw [hr]
    simp [mkSingleResult, le_of_lt tolVol_pos]
  · rw [hr] at h
    simp [mkInfeasible] at h

/-- C2 witness at the default application input. -/
theorem volume_sum_within_tolerance_witness :
    |((calculateCounterweight ⟨600, 100, 1800⟩ 780 79 [matBeton, matOcel]).materials.map
        (fun a => a.volume)).sum -
      (calculateCounterweight ⟨600, 100, 1800⟩ 780 79 [matBeton, matOcel]).totalVolume| ≤
      tolVol :=
  volume_sum_within_tolerance ⟨600, 100, 1800⟩ 780 79 [matBeton, matOcel]
    (by norm_num) (by norm_num) (by norm_num) (by rw [evalDefaultInput])

/-- C3 (amended): for every input with positive dimensions on which the
solver reports feasibility, the percentages of the allocation entries
sum to 100 within 1e-4 (in fact exactly). -/
theorem percentage_sum_eq_hundred (dimensions : Dimensions) (tw fw : ℚ)
    (ms : List Material)
    (hw : 0 < dimensions.width) (hd : 0 < dimensions.depth)
    (hh : 0 < dimensions.height)
    (h : (calculateCounterweight dimensions tw fw ms).isFeasible = true) :
    |((calculateCounterweight dimensions tw fw ms).materials.map
        (fun a => a.percentage)).sum - 100| ≤ 1 / 10000 := by
  have hV : 0 < volM3 dimensions := by
    unfold volM3
    exact mul_pos (mul_pos (div_pos hw (by norm_num)) (div_pos hd (by norm_num)))
      (div_pos hh (by norm_num))
  rcases calculateCounterweight_cases dimensions tw fw ms with
    ⟨_, hr⟩ | ⟨_, m1, m2, hfp, hr⟩ | ⟨_, _, m, hfs, hr⟩ | ⟨_, _, _, hr⟩
  · rw [hr] at h
    simp [mkFrameResult] at h
  · rw [hr]
    have hsum := clamp_add_clamp hV.le (pairV1 (volM3 dimensions) (tw - fw) m1 m2)
    simp only [mkPairResult, List.map_cons, List.map_nil, List.sum_cons,
      List.sum_nil, add_zero]
    have hp : clamp (volM3 dimensions) (pairV1 (volM3 dimensions) (tw - fw) m1 m2) /
          volM3 dimensions * 100 +
        clamp (volM3 dimensions)
          (volM3 dimensions - pairV1 (volM3 dimensions) (tw - fw) m1 m2) /
          volM3 dimensions * 100 =
        (clamp (volM3 dimensions) (pairV1 (volM3 dimensions) (tw - fw) m1 m2) +
          clamp (volM3 dimensions)
            (volM3 dimensions - pairV1 (volM3 dimensions) (tw - fw) m1 m2)) /
          volM3 dimensions * 100 := by
      ring
    rw [hp, hsum, div_self hV.ne', one_mul]
    norm_num
  · rw [hr]
    simp [mkSingleResult]
  · rw [hr] at h
    simp [mkInfeasible] at h

/-- C3 witness at the default application input. -/
theorem percentage_sum_eq_hundred_witness :
    |((calculateCounterweight ⟨600, 100, 1800⟩ 780 79 [matBeton, matOcel]).materials.map
        (fun a => a.percentage)).sum - 100| ≤ 1 / 10000 :=
  percentage_sum_eq_hundred ⟨600, 100, 1800⟩ 780 79 [matBeton, matOcel]
    (by norm_num) (by norm_num) (by norm_num) (by rw [evalDefaultInput])

/-- C3 counterexample: with a zero width the total volume is 0, yet the
pair `(G, H)` (densities 10000 and 0) is still accepted for a tiny net
target weight; both volumes clamp to 0 and both percentages are 0 (the
source computes `0 / 0`, NaN, which likewise fails every comparison with
100), so the percentages of this feasible result do not sum to 100. -/
theorem percentage_sum_counterexample :
    (calculateCounterweight ⟨0, 100, 100⟩ (1 / 1000) 0 [matDense, matZero]).isFeasible =
        true ∧
    ¬ |((calculateCounterweight ⟨0, 100, 100⟩ (1 / 1000) 0 [matDense, matZero]).materials.map
        (fun a => a.percentage)).sum - 100| ≤ 1 / 10000 := by
  rw [evalZeroWidth]
  norm_num

/-- C4: whenever the target total weight does not exceed the frame
weight, the result is infeasible with an empty allocation list and the
frame-exceeds-target reason, regardless of dimensions and materials. -/
theorem frame_exceeds_target_result (dimensions : Dimensions) (tw fw : ℚ)
    (ms : List Material) (h : tw ≤ fw) :
    (calculateCounterweight dimensions tw fw ms).isFeasible = false ∧
    (calculateCounterweight dimensions tw fw ms).materials = [] ∧
    (calculateCounterweight dimensions tw fw ms).message = Msg.frameExceedsTarget := by
  have h0 : tw - fw ≤ 0 := by linarith
  rw [calculateCounterweight, if_pos h0]
  exact ⟨rfl, rfl, rfl⟩

/-- C4 witness: target 50 kg below the 79 kg frame weight. -/
theorem frame_exceeds_target_result_witness :
    (calculateCounterweight ⟨600, 100, 1800⟩ 50 79 [matBeton, matOcel]).isFeasible = false ∧
    (calculateCounterweight ⟨600, 100, 1800⟩ 50 79 [matBeton, matOcel]).materials = [] ∧
    (calculateCounterweight ⟨600, 100, 1800⟩ 50 79 [matBeton, matOcel]).message =
      Msg.frameExceedsTarget :=
  frame_exceeds_target_result ⟨600, 100, 1800⟩ 50 79 [matBeton, matOcel] (by norm_num)

/-- C5 counterexample: at the concrete scenario input the returned
volumes are 367/13625 m3 (Beton, about 0.0269) and 2209/27250 m3 (Ocel,
about 0.0810); the Beton volume is NOT within 1e-6 of the 0.0809 m3 the
claim states. -/
theorem concrete_scenario_claimed_values_false :
    ((calculateCounterweight ⟨600, 100, 1800⟩ 780 79 [matBeton, matOcel]).materials.map
        (fun a => a.volume)) = [367 / 13625, 2209 / 27250] ∧
    ¬ |(367 / 13625 : ℚ) - 809 / 10000| ≤ 1 / 1000000 := by
  refine ⟨?_, ?_⟩
  · rw [evalDefaultInput]
    simp
  · rw [abs_of_neg (by norm_num : (367 / 13625 : ℚ) - 809 / 10000 < 0)]
    norm_num

/-- C5 (amended): at the concrete scenario input the solver returns a
feasible pair result with Beton volume 367/13625 m3 (about 0.0269,
weight 35232/545 kg, about 64.6) and Ocel volume 2209/27250 m3 (about
0.0810, weight 346813/545 kg, about 636.4), the weights summing to
exactly 701 kg. -/
theorem concrete_scenario_result :
    calculateCounterweight ⟨600, 100, 1800⟩ 780 79 [matBeton, matOcel] =
      { totalVolume := 27 / 250
        netTargetWeight := 701
        materials := [⟨matBeton, 367 / 13625, 35232 / 545, 73400 / 2943⟩,
                      ⟨matOcel, 2209 / 27250, 346813 / 545, 220900 / 2943⟩]
        isFeasible := true
        message := .successPair "Beton" "Ocel" } ∧
    ((calculateCounterweight ⟨600, 100, 1800⟩ 780 79 [matBeton, matOcel]).materials.map
        (fun a => a.weight)).sum = 701 := by
  refine ⟨evalDefaultInput, ?_⟩
  rw [evalDefaultInput]
  norm_num

/-- C6: a result with exactly two allocation entries only ever comes
from a pair whose densities differ; a pair of equal densities is
skipped and can never produce a pair result. -/
theorem pair_result_densities_distinct (dimensions : Dimensions) (tw fw : ℚ)
    (ms : List Material) (a1 a2 : MaterialAllocation)
    (h : (calculateCounterweight dimensions tw fw ms).materials = [a1, a2]) :
    a1.material.density ≠ a2.material.density := by
  rcases calculateCounterweight_cases dimensions tw fw ms with
    ⟨_, hr⟩ | ⟨_, m1, m2, hfp, hr⟩ | ⟨_, _, m, hfs, hr⟩ | ⟨_, _, _, hr⟩
  · rw [hr] at h
    simp [mkFrameResult] at h
  · rw [hr] at h
    have hne := (accepts_spec (findPair_accepts hfp)).1
    simp only [mkPairResult, List.cons.injEq, and_true] at h
    obtain ⟨h1, h2⟩ := h
    rw [← h1, ← h2]
    exact hne
  · rw [hr] at h
    simp [mkSingleResult] at h
  · rw [hr] at h
    simp [mkInfeasible] at h

/-- C6 witness at the default application input. -/
theorem pair_result_densities_distinct_witness :
    (⟨matBeton, 367 / 13625, 35232 / 545, 73400 / 2943⟩ : MaterialAllocation).material.density ≠
      (⟨matOcel, 2209 / 27250, 346813 / 545, 220900 / 2943⟩ : MaterialAllocation).material.density :=
  pair_result_densities_distinct ⟨600, 100, 1800⟩ 780 79 [matBeton, matOcel] _ _
    (by rw [evalDefaultInput])

/-- C7: when the adjacent pair at index `i` of the priority-sorted list
is accepted and no adjacent pair at a smaller index is, the solver
returns exactly the pair result for that pair (entries in priority
order, `m1` first); later pairs and the single-material fallback are
never consulted. -/
theorem first_accepted_pair_wins (dimensions : Dimensions) (tw fw : ℚ)
    (ms : List Material) (i : ℕ) (m1 m2 : Material) (rest : List Material)
    (hW : 0 < tw - fw)
    (hdrop : (sortByPriority ms).drop i = m1 :: m2 :: rest)
    (hacc : accepts (volM3 dimensions) (tw - fw) m1 m2 = true)
    (hmin : ∀ j, j < i →
      acceptsAt (volM3 dimensions) (tw - fw) (sortByPriority ms) j = false) :
    calculateCounterweight dimensions tw fw ms =
      mkPairResult (volM3 dimensions) (tw - fw) m1 m2 := by
  have hfp := findPair_eq_first i (sortByPriority ms) m1 m2 rest hdrop hacc hmin
  rw [calculateCounterweight, if_neg (not_le.mpr hW)]
  simp only [hfp]

/-- C7 witness: three materials of densities 100, 200 and 1800 in a
1 m3 box with net target 1000 kg; the first adjacent pair (100, 200) is
rejected (it would need a negative volume) and the second pair
(200, 1800) is accepted, so the solver returns the second pair. -/
theorem first_accepted_pair_wins_witness :
    calculateCounterweight ⟨1000, 1000, 1000⟩ 1000 0 [matLight, matMid, matHeavy] =
      mkPairResult (volM3 ⟨1000, 1000, 1000⟩) (1000 - 0) matMid matHeavy :=
  first_accepted_pair_wins ⟨1000, 1000, 1000⟩ 1000 0 [matLight, matMid, matHeavy]
    1 matMid matHeavy []
    (by norm_num)
    (by norm_num [sortByPriority, List.insertionSort, List.orderedInsert,
      matLight, matMid, matHeavy])
    (by norm_num [accepts, pairV1, volM3, tolVol, matMid, matHeavy])
    (by
      intro j hj
      obtain rfl : j = 0 := by omega
      norm_num [acceptsAt, sortByPriority, List.insertionSort, List.orderedInsert,
        accepts, pairV1, volM3, tolVol, matLight, matMid, matHeavy])

/-- C8: the solver is total and encodes infeasibility as data: every
call (any dimensions, any weights, a materials list of any length
including the empty one) yields a result that is either infeasible with
an empty allocation list or feasible with a nonempty one. -/
theorem infeasibility_encoded_in_result (dimensions : Dimensions) (tw fw : ℚ)
    (ms : List Material) :
    ((calculateCounterweight dimensions tw fw ms).isFeasible = false ∧
      (calculateCounterweight dimensions tw fw ms).materials = []) ∨
    ((calculateCounterweight dimensions tw fw ms).isFeasible = true ∧
      (calculateCounterweight dimensions tw fw ms).materials ≠ []) := by
  rcases calculateCounterweight_cases dimensions tw fw ms with
    ⟨_, hr⟩ | ⟨_, m1, m2, _, hr⟩ | ⟨_, _, m, _, hr⟩ | ⟨_, _, _, hr⟩
  · left
    rw [hr]
    exact ⟨rfl, rfl⟩
  · right
    rw [hr]
    exact ⟨rfl, by simp [mkPairResult]⟩
  · right
    rw [hr]
    exact ⟨rfl, by simp [mkSingleResult]⟩
  · left
    rw [hr]
    exact ⟨rfl, rfl⟩

/-- C9: the call does not corrupt the input materials list: the sort
operates on a copy that is a permutation of the input, and every
allocation entry of the result references an element of the input list,
unmodified. -/
theorem input_materials_preserved (dimensions : Dimensions) (tw fw : ℚ)
    (ms : List Material) :
    (sortByPriority ms).Perm ms ∧
    ∀ a ∈ (calculateCounterweight dimensions tw fw ms).materials, a.material ∈ ms := by
  have hperm : (sortByPriority ms).Perm ms := List.perm_insertionSort _ ms
  refine ⟨hperm, ?_⟩
  rcases calculateCounterweight_cases dimensions tw fw ms with
    ⟨_, hr⟩ | ⟨_, m1, m2, hfp, hr⟩ | ⟨_, _, m, hfs, hr⟩ | ⟨_, _, _, hr⟩
  · rw [hr]
    intro a ha
    exact absurd ha (List.not_mem_nil a)
  · rw [hr]
    intro a ha
    have hm := findPair_mem hfp
    simp only [mkPairResult, List.mem_cons, List.not_mem_nil, or_false] at ha
    rcases ha with rfl | rfl
    · exact hperm.mem_iff.mp hm.1
    · exact hperm.mem_iff.mp hm.2
  · rw [hr]
    intro a ha
    have hm := findSingle_mem hfs
    simp only [mkSingleResult, List.mem_cons, List.not_mem_nil, or_false] at ha
    subst ha
    exact hperm.mem_iff.mp hm
  · rw [hr]
    intro a ha
    exact absurd ha (List.not_mem_nil a)

/-- C9 witness at the default application input. -/
theorem input_materials_preserved_witness :
    (⟨matBeton, 367 / 13625, 35232 / 545, 73400 / 2943⟩ : MaterialAllocation).material ∈
      [matBeton, matOcel] :=
  (input_materials_preserved ⟨600, 100, 1800⟩ 780 79 [matBeton, matOcel]).2 _
    (by rw [evalDefaultInput]; exact List.mem_cons_self _ _)

/-- C10: an input (1 m3 box, net target 1000 kg, densities 1000 and
2000) where the net target is achievable by 100 percent of the first
material of an adjacent pair of distinct densities: the pair loop runs
first and pre-empts the single-material fallback, returning a
two-entry pair result whose second entry has volume 0, weight 0 and
percentage 0. -/
theorem pair_preempts_single_fallback :
    |volM3 ⟨1000, 1000, 1000⟩ * matA.density - (1000 - 0)| < tolWeight ∧
    matA.density ≠ matB.density ∧
    calculateCounterweight ⟨1000, 1000, 1000⟩ 1000 0 [matA, matB] =
      { totalVolume := 1
        netTargetWeight := 1000
        materials := [⟨matA, 1, 1000, 100⟩, ⟨matB, 0, 0, 0⟩]
        isFeasible := true
        message := .successPair "A" "B" } := by
  refine ⟨by norm_num [volM3, matA, tolWeight], by norm_num [matA, matB], ?_⟩
  norm_num [calculateCounterweight, volM3, sortByPriority, List.insertionSort,
    List.orderedInsert, findPair, findSingle, accepts, pairV1, clamp,
    mkPairResult, mkSingleResult, mkFrameResult, mkInfeasible, tolVol, tolWeight,
    matA, matB, min_def, max_def]

end Counterweight
